import Mathlib

/-!
Verification of the declarative DOM-conformance checker specified for the
Wema Bank landing-page repository, together with the concrete checks of
`src/tests/html-structure.spec.js`.  The document model and the checks that
exist in the repository (heading hierarchy, secure external links, image
alt text) are embedded from the test source; the rule engine itself
(Rule/Finding/RuleSet/RunReport, the evaluators and `evaluate`) is not in
the repository's files and is modelled from the spec's words, as marked on
each such definition.
-/

namespace DomConf

/-- An element of the document: tag name, attribute list and (trimmed,
concatenated) visible text.  A `Dom` keeps its elements in document order. -/
structure Elem where
  tag : String
  attrs : List (String × String)
  text : String
deriving Repr, DecidableEq, Inhabited

/-- Attribute lookup: the value of the first binding of `name`, or `none`
when the element has no such attribute (JS `getAttribute` yields `null`). -/
def Elem.attr (e : Elem) (name : String) : Option String :=
  (e.attrs.find? (fun p => p.1 == name)).map Prod.snd

/-- A document: its elements listed in document order.  The DOM Accessor's
`query` filters this sequence, preserving order, and never throws on zero
matches (spec §4.1). -/
structure Dom where
  elems : List Elem
deriving Repr, Inhabited

/-- A selector, abstracted as the predicate on elements with which the DOM
Accessor answers `query`. -/
abbrev Selector := Elem → Bool

/-- Document-order resolution of a selector (spec §4.1 `query`). -/
def Dom.query (d : Dom) (sel : Selector) : List Elem :=
  d.elems.filter sel

/-- Match count of a selector (spec §4.1 `count`). -/
def Dom.countSel (d : Dom) (sel : Selector) : Nat :=
  (d.query sel).length

/-- Substring containment, mirroring the JS `String.prototype.includes`
semantics behind `toContain` and `toContainText`. -/
def strContains (hay needle : String) : Bool :=
  (List.range (hay.length + 1)).any (fun i => needle.toList.isPrefixOf (hay.toList.drop i))

/-- Decimal digit character of a value below ten. -/
def digitChar (n : Nat) : Char := Char.ofNat (48 + n)

/-- Decimal digits of `n`, most significant first, with a fuel argument for
structural recursion. -/
def natDigits : Nat → Nat → List Char
  | 0, _ => []
  | fuel + 1, n =>
    if n < 10 then [digitChar n]
    else natDigits fuel (n / 10) ++ [digitChar (n % 10)]

/-- Decimal rendering of a natural number. -/
def natToStr (n : Nat) : String := ⟨natDigits (n + 1) n⟩

/-- Whitespace character test used for trimming and token splitting. -/
def isSpaceChar (c : Char) : Bool :=
  c == ' ' || c == '\t' || c == '\n' || c == '\r'

/-- Leading- and trailing-whitespace removal on a character list. -/
def trimChars (cs : List Char) : List Char :=
  ((cs.dropWhile isSpaceChar).reverse.dropWhile isSpaceChar).reverse

/-- Trimmed text, as the DOM Accessor's `text` operation returns it (§4.1). -/
def trimStr (s : String) : String := ⟨trimChars s.toList⟩

/-- Split of a character list at spaces. -/
def splitTokensAux : List Char → List Char → List (List Char)
  | [], acc => [acc.reverse]
  | c :: rest, acc =>
    if c == ' ' then acc.reverse :: splitTokensAux rest []
    else splitTokensAux rest (c :: acc)

/-- Whitespace-separated token membership in an attribute value such as
`rel="noopener noreferrer"`. -/
def hasToken (s tok : String) : Bool :=
  (splitTokensAux s.toList []).contains tok.toList

/-- Modelled from the spec: rule severity (§3) — Warning rules do not fail
the overall run but are reported. -/
inductive Severity
  | error
  | warning
deriving Repr, DecidableEq

/-- Modelled from the spec: a Finding's status (§3). -/
inductive Status
  | pass
  | fail
  | skipped (reason : String)
deriving Repr, DecidableEq

/-- Modelled from the spec: the expected payload of a Count rule — exact or
bounded (min/max) match count (§4.2). -/
inductive CountExpect
  | exact (n : Nat)
  | bounded (lo : Option Nat) (hi : Option Nat)

/-- Modelled from the spec: the rule-kind vocabulary (§3); the engine this
vocabulary feeds is specified but absent from the repository's files. -/
inductive RuleKind
  | existsAtLeast (minCount : Nat)
  | attributeEquals (attrName : String) (expected : String)
  | attributeContains (attrName : String) (expected : String)
  | textContains (required : List String)
  | countMatches (expected : CountExpect)
  | orderedSequence (expected : List String)
  | headingHierarchy
  | ariaCrossReference

/-- Modelled from the spec: one expectation unit (§3). -/
structure Rule where
  id : String
  kind : RuleKind
  sel : Selector
  severity : Severity

/-- Modelled from the spec: the outcome of evaluating one Rule (§3).  The
originating rule's severity is carried on the Finding so that the summary
can count by status × severity (§4.4) and `passed` can be derived (§3). -/
structure Finding where
  ruleId : String
  severity : Severity
  status : Status
  actual : Option String
  message : String
deriving Repr, DecidableEq

/-- Heading recognition: the `h1, h2, h3, h4, h5, h6` locator of the
heading-hierarchy test (src/tests/html-structure.spec.js line 515). -/
def isHeading (e : Elem) : Bool :=
  e.tag == "h1" || e.tag == "h2" || e.tag == "h3" ||
    e.tag == "h4" || e.tag == "h5" || e.tag == "h6"

/-- Leading-digit value of a character list, as `parseInt` reads digits. -/
def digitsVal : List Char → Nat → Nat
  | [], acc => acc
  | c :: cs, acc =>
    if c.isDigit then digitsVal cs (acc * 10 + (c.toNat - 48)) else acc

/-- Heading level, as `parseInt(tagName.substring(1))` (line 520). -/
def headingLevel (t : String) : Int :=
  match t.toList with
  | [] => 0
  | _ :: rest => Int.ofNat (digitsVal rest 0)

/-- Document-order sequence of heading levels (lines 515-522). -/
def headingLevelSeq (d : Dom) : List Int :=
  (d.elems.filter isHeading).map (fun e => headingLevel e.tag)

/-- Adjacent-pair check of the heading-hierarchy test (lines 525-528):
every difference `levels[i] - levels[i-1]` must be at most 1. -/
def noSkippedLevels : List Int → Bool
  | [] => true
  | [_] => true
  | a :: b :: rest => decide (b - a ≤ 1) && noSkippedLevels (b :: rest)

/-- First index at which the document-order texts fail to contain the
expected substrings, together with the expected and the actual value. -/
def firstMismatchFrom : Nat → List String → List String → Option (Nat × String × String)
  | _, [], _ => none
  | _, _ :: _, [] => none
  | i, e :: es, t :: ts =>
    if strContains t e then firstMismatchFrom (i + 1) es ts else some (i, e, t)

/-- Message of an OrderedSequence failure: the index and both values (§4.2). -/
def mismatchMsg (i : Nat) (e a : String) : String :=
  "mismatch at index " ++ natToStr i ++ ": expected " ++ e ++ ", actual " ++ a

/-- Resolution of an id reference: the first element whose `id` attribute
equals it, as a CSS `#id` lookup resolves to the first match. -/
def resolveId (d : Dom) (idRef : String) : Option Elem :=
  d.elems.find? (fun e => e.attr "id" == some idRef)

/-- First `aria-labelledby` reference among the given elements that
resolves to no element of the document. -/
def missingRef (d : Dom) (es : List Elem) : Option String :=
  (es.filterMap (fun e => e.attr "aria-labelledby")).find? (fun r => (resolveId d r).isNone)

/-- Modelled from the spec: a Pass Finding for a rule (§3). -/
def passFinding (r : Rule) (msg : String) : Finding :=
  { ruleId := r.id, severity := r.severity, status := Status.pass,
    actual := none, message := msg }

/-- Modelled from the spec: a Fail Finding for a rule, listing the observed
value when there is one (§3, §4.2). -/
def failFinding (r : Rule) (actual : Option String) (msg : String) : Finding :=
  { ruleId := r.id, severity := r.severity, status := Status.fail,
    actual := actual, message := msg }

/-- Bounded-count comparison: the observed count is within the optional
lower and upper bounds (§4.2 Count). -/
def boundOk (lo hi : Option Nat) (c : Nat) : Bool :=
  (match lo with
    | some l => decide (l ≤ c)
    | none => true) &&
  (match hi with
    | some h => decide (c ≤ h)
    | none => true)

/-- Modelled from the spec: the per-kind Rule evaluators (§4.2), each a pure
function of the rule and the document, dispatched on the kind tag. -/
def evalRule (r : Rule) (d : Dom) : Finding :=
  match r.kind with
  | RuleKind.existsAtLeast minCount =>
    let c := d.countSel r.sel
    if minCount ≤ c then passFinding r "present"
    else failFinding r (some (natToStr c))
      ("expected at least " ++ natToStr minCount ++ " matches, actual " ++ natToStr c)
  | RuleKind.attributeEquals name expected =>
    match d.query r.sel with
    | [] => failFinding r none "no element matches selector"
    | e :: _ =>
      match e.attr name with
      | none => failFinding r none ("attribute " ++ name ++ " missing")
      | some v =>
        if v == expected then passFinding r "attribute equals expected"
        else failFinding r (some v) ("expected " ++ expected ++ ", actual " ++ v)
  | RuleKind.attributeContains name expected =>
    match d.query r.sel with
    | [] => failFinding r none "no element matches selector"
    | e :: _ =>
      match e.attr name with
      | none => failFinding r none ("attribute " ++ name ++ " missing")
      | some v =>
        if strContains v expected then passFinding r "attribute contains expected"
        else failFinding r (some v) ("expected to contain " ++ expected ++ ", actual " ++ v)
  | RuleKind.textContains required =>
    match d.query r.sel with
    | [] => failFinding r none "no element matches selector"
    | e :: _ =>
      if required.all (fun s => strContains (trimStr e.text) s) then
        passFinding r "text contains all required substrings"
      else failFinding r (some (trimStr e.text)) "required substring missing"
  | RuleKind.countMatches expected =>
    let c := d.countSel r.sel
    match expected with
    | CountExpect.exact n =>
      if c == n then passFinding r "count matches"
      else failFinding r (some (natToStr c))
        ("expected exactly " ++ natToStr n ++ ", actual " ++ natToStr c)
    | CountExpect.bounded lo hi =>
      if boundOk lo hi c then passFinding r "count within bounds"
      else failFinding r (some (natToStr c)) ("count out of bounds, actual " ++ natToStr c)
  | RuleKind.orderedSequence expected =>
    match firstMismatchFrom 0 expected ((d.query r.sel).map (fun e => trimStr e.text)) with
    | none => passFinding r "sequence matches expected order"
    | some (i, e, a) => failFinding r (some a) (mismatchMsg i e a)
  | RuleKind.headingHierarchy =>
    if noSkippedLevels (headingLevelSeq d) then passFinding r "no skipped heading level"
    else failFinding r none "skipped heading level"
  | RuleKind.ariaCrossReference =>
    match missingRef d (d.query r.sel) with
    | none => passFinding r "all aria-labelledby references resolve"
    | some ref => failFinding r (some ref) ("no element with id " ++ ref)

/-- Error severity as a boolean test. -/
def sevIsError : Severity → Bool
  | Severity.error => true
  | Severity.warning => false

/-- Pass status as a boolean test. -/
def statusIsPass : Status → Bool
  | Status.pass => true
  | _ => false

/-- Fail status as a boolean test. -/
def statusIsFail : Status → Bool
  | Status.fail => true
  | _ => false

/-- Skipped status as a boolean test. -/
def statusIsSkipped : Status → Bool
  | Status.skipped _ => true
  | _ => false

/-- Modelled from the spec: summary counts of Pass/Fail/Skipped findings by
severity (§3, §4.4). -/
structure Summary where
  passErr : Nat
  passWarn : Nat
  failErr : Nat
  failWarn : Nat
  skipErr : Nat
  skipWarn : Nat
deriving Repr, DecidableEq

/-- Modelled from the spec: pure aggregation of findings into counts by
status × severity (§4.4). -/
def summarize (fs : List Finding) : Summary :=
  { passErr := (fs.filter (fun f => statusIsPass f.status && sevIsError f.severity)).length
  , passWarn := (fs.filter (fun f => statusIsPass f.status && !sevIsError f.severity)).length
  , failErr := (fs.filter (fun f => statusIsFail f.status && sevIsError f.severity)).length
  , failWarn := (fs.filter (fun f => statusIsFail f.status && !sevIsError f.severity)).length
  , skipErr := (fs.filter (fun f => statusIsSkipped f.status && sevIsError f.severity)).length
  , skipWarn := (fs.filter (fun f => statusIsSkipped f.status && !sevIsError f.severity)).length }

/-- An Error-severity failing Finding: the only kind of Finding that makes
`passed` false (§3). -/
def failingError (f : Finding) : Bool :=
  decide (f.status = Status.fail ∧ f.severity = Severity.error)

/-- Modelled from the spec: the `passed` derivation — true iff no Finding
has status Fail with severity Error (§3). -/
def computePassed (fs : List Finding) : Bool :=
  fs.all (fun f => ! failingError f)

/-- Modelled from the spec: aggregate of all Findings for one run (§3);
`passed` and the summary are computed once at construction. -/
structure RunReport where
  findings : List Finding
  summary : Summary
  passed : Bool
deriving Repr, DecidableEq

/-- Modelled from the spec: RunReport construction (§3, §4.4). -/
def mkRunReport (fs : List Finding) : RunReport :=
  { findings := fs, summary := summarize fs, passed := computePassed fs }

/-- Modelled from the spec: engine options (§4.3); failFast defaults false. -/
structure EvalOptions where
  failFast : Bool
deriving Repr, DecidableEq

/-- Modelled from the spec: the Skipped Finding given to rules after an
Error-severity Fail under failFast (§4.3). -/
def skippedFinding (r : Rule) : Finding :=
  { ruleId := r.id, severity := r.severity,
    status := Status.skipped "upstream fail-fast",
    actual := none, message := "skipped: upstream fail-fast" }

/-- Modelled from the spec: rule iteration in declared order (§4.3); under
failFast the rules after the first Error-severity Fail are marked Skipped. -/
def evalRules (d : Dom) (ff : Bool) : List Rule → Bool → List Finding
  | [], _ => []
  | r :: rs, tripped =>
    if tripped then skippedFinding r :: evalRules d ff rs tripped
    else
      let f := evalRule r d
      f :: evalRules d ff rs (ff && (statusIsFail f.status && sevIsError r.severity))

/-- Modelled from the spec: an ordered, immutable collection of Rules (§3). -/
structure RuleSet where
  rules : List Rule

/-- Modelled from the spec: the Conformance Engine operation
`evaluate(RuleSet, DomAccessor, options) -> RunReport` (§4.3). -/
def evaluate (R : RuleSet) (d : Dom) (opts : EvalOptions) : RunReport :=
  mkRunReport (evalRules d opts.failFast R.rules false)

/-- Modelled from the spec: the session state behind the DOM Accessor (§7) —
either a reachable document or a lost, unreachable session. -/
inductive AccessorState
  | reachable (d : Dom)
  | unreachable

/-- Modelled from the spec: engine-level errors, distinct from conformance
failures (§7). -/
inductive EngineError
  | accessorUnreachable
deriving Repr, DecidableEq

/-- Modelled from the spec: the outer invocation (§4.3, §7) — only
infrastructure-level failures surface as engine-level errors; conformance
failures stay inside the returned RunReport. -/
def runEngine (R : RuleSet) (s : AccessorState) (opts : EvalOptions) :
    Except EngineError RunReport :=
  match s with
  | AccessorState.reachable d => Except.ok (evaluate R d opts)
  | AccessorState.unreachable => Except.error EngineError.accessorUnreachable

/-- Per-anchor body of the test `should have secure external links`
(src/tests/html-structure.spec.js lines 764-774): the `rel` attribute must
contain `noopener` and `noreferrer`; a null `rel` fails `toContain`. -/
def relSecure (e : Elem) : Bool :=
  match e.attr "rel" with
  | some rel => strContains rel "noopener" && strContains rel "noreferrer"
  | none => false

/-- Secure-external-links check body: the loop over every anchor whose
target attribute is `_blank` (lines 765-773). -/
def secureExternalLinksCheck (d : Dom) : Bool :=
  (d.elems.filter (fun e => e.tag == "a" && e.attr "target" == some "_blank")).all relSecure

/-- JavaScript attribute-read result: `getAttribute` yields a string or
null, never undefined. -/
inductive JsVal
  | undef
  | null
  | str (s : String)
deriving Repr, DecidableEq, BEq

/-- Attribute read with JavaScript null semantics. -/
def getAttributeJs (e : Elem) (name : String) : JsVal :=
  match e.attr name with
  | some s => JsVal.str s
  | none => JsVal.null

/-- Jest `toBeDefined`: satisfied by every value other than undefined, null
included. -/
def toBeDefinedB : JsVal → Bool
  | JsVal.undef => false
  | _ => true

/-- Image check of `should have alt text for all images` (lines 536-544):
for each img whose aria-hidden is not the string "true", assert that the
alt attribute read is defined. -/
def altTextTestCheck (d : Dom) : Bool :=
  (d.elems.filter (fun e => e.tag == "img")).all
    (fun e =>
      if getAttributeJs e "aria-hidden" == JsVal.str "true" then true
      else toBeDefinedB (getAttributeJs e "alt"))

/-- Image check of the accessibility-audit test (line 733): for every img,
alt is not null or aria-hidden equals "true". -/
def auditImgCheck (d : Dom) : Bool :=
  (d.elems.filter (fun e => e.tag == "img")).all
    (fun e => (e.attr "alt").isSome || e.attr "aria-hidden" == some "true")

/-! Concrete fixtures used as witnesses and boundary inputs. -/

/-- A HeadingHierarchy rule instance. -/
def hhRule : Rule :=
  { id := "heading-hierarchy", kind := RuleKind.headingHierarchy,
    sel := fun _ => true, severity := Severity.error }

/-- A heading element of the given tag. -/
def hElem (t : String) : Elem :=
  { tag := t, attrs := [], text := "" }

/-- Document whose heading level sequence is [1, 3]. -/
def dom13 : Dom := { elems := [hElem "h1", hElem "h3"] }

/-- Document whose heading level sequence is [1, 2, 3, 2, 4]. -/
def dom12324 : Dom :=
  { elems := [hElem "h1", hElem "h2", hElem "h3", hElem "h2", hElem "h4"] }

/-- Document whose heading level sequence is [1, 2, 3, 2, 3]. -/
def dom12323 : Dom :=
  { elems := [hElem "h1", hElem "h2", hElem "h3", hElem "h2", hElem "h3"] }

/-- Expected navigation label order of the landing page. -/
def navExpected : List String := ["Home", "Services", "About", "Contact"]

/-- A navigation child anchor with the given text. -/
def navChild (s : String) : Elem := { tag := "a", attrs := [], text := s }

/-- Document whose anchor texts read Home, About, Services, Contact. -/
def navDom : Dom :=
  { elems := [navChild "Home", navChild "About", navChild "Services", navChild "Contact"] }

/-- An OrderedSequence rule over the anchors of a document. -/
def osRule (expd : List String) : Rule :=
  { id := "nav-order", kind := RuleKind.orderedSequence expd,
    sel := fun e => e.tag == "a", severity := Severity.error }

/-- A Count rule with an exact expected count of 4. -/
def countRule (rid : String) (sev : Severity) (sel : Selector) : Rule :=
  { id := rid, kind := RuleKind.countMatches (CountExpect.exact 4),
    sel := sel, severity := sev }

/-- A service-card element. -/
def cardElem : Elem := { tag := "div", attrs := [("class", "service-card")], text := "" }

/-- Selector matching the service cards. -/
def cardSel : Selector := fun e => e.tag == "div"

/-- Document holding `n` service cards. -/
def domCards (n : Nat) : Dom := { elems := List.replicate n cardElem }

/-- An AriaCrossReference rule over the given selector. -/
def ariaRule (rid : String) (sev : Severity) (sel : Selector) : Rule :=
  { id := rid, kind := RuleKind.ariaCrossReference, sel := sel, severity := sev }

/-- A section labelled by the id hero-title. -/
def heroSection : Elem :=
  { tag := "section", attrs := [("aria-labelledby", "hero-title")], text := "" }

/-- First element carrying the id hero-title. -/
def heroTitle1 : Elem := { tag := "h1", attrs := [("id", "hero-title")], text := "first" }

/-- Second element carrying the id hero-title. -/
def heroTitle2 : Elem := { tag := "h2", attrs := [("id", "hero-title")], text := "second" }

/-- Selector matching section elements. -/
def secSel : Selector := fun e => e.tag == "section"

/-- AriaCrossReference rule instance over the sections. -/
def ariaSample : Rule := ariaRule "aria-xref" Severity.error secSel

/-- Document where the referenced id resolves to nothing. -/
def domNoId : Dom := { elems := [heroSection] }

/-- Document where exactly one element carries the referenced id. -/
def domOneId : Dom := { elems := [heroSection, heroTitle1] }

/-- Document where two elements share the referenced id. -/
def domTwoIds : Dom := { elems := [heroSection, heroTitle1, heroTitle2] }

/-- A small concrete RuleSet for closed instantiations. -/
def sampleRules : RuleSet := { rules := [ariaSample, hhRule] }

/-- The default engine options (failFast off, §4.3). -/
def defaultOpts : EvalOptions := { failFast := false }

/-- A social-media footer link, as pinned by the accessible-navigation test
(lines 409-420): target _blank and rel exactly "noopener noreferrer". -/
def socialLinkElem (url lab : String) : Elem :=
  { tag := "a",
    attrs := [("href", url), ("aria-label", lab), ("target", "_blank"),
              ("rel", "noopener noreferrer")],
    text := "" }

/-- The four social-media links of the page. -/
def socialDom : Dom :=
  { elems :=
      [socialLinkElem "https://facebook.com/wemabank" "Facebook",
       socialLinkElem "https://twitter.com/wemabank" "Twitter",
       socialLinkElem "https://linkedin.com/company/wema-bank-plc" "LinkedIn",
       socialLinkElem "https://instagram.com/wemabank" "Instagram"] }

/-- A decorative service-card icon: alt empty and aria-hidden true, as the
service-cards test pins (lines 302-305). -/
def decorativeIcon : Elem :=
  { tag := "img",
    attrs := [("alt", ""), ("aria-hidden", "true"), ("width", "64"), ("height", "64")],
    text := "" }

/-- An image marked aria-hidden without any alt attribute. -/
def hiddenNoAltImg : Elem :=
  { tag := "img", attrs := [("aria-hidden", "true")], text := "" }

/-- Document holding one decorative icon. -/
def imgDomDecorative : Dom := { elems := [decorativeIcon] }

/-- Document holding one aria-hidden image without alt. -/
def imgDomHiddenNoAlt : Dom := { elems := [hiddenNoAltImg] }

/-! Helper lemmas shared by the claim theorems. -/

/-- The adjacent-difference loop accepts a level sequence exactly when every
adjacent pair satisfies `next - previous ≤ 1`. -/
theorem noSkippedLevels_iff (l : List Int) :
    noSkippedLevels l = true ↔ ∀ p ∈ l.zip l.tail, p.2 - p.1 ≤ 1 := by
  induction l with
  | nil => simp [noSkippedLevels]
  | cons a t ih =>
    cases t with
    | nil => simp [noSkippedLevels]
    | cons b r =>
      rw [noSkippedLevels]
      simp only [List.tail_cons, List.zip_cons_cons, List.mem_cons, Bool.and_eq_true,
        decide_eq_true_eq]
      constructor
      · rintro ⟨h1, h2⟩ p hp
        rcases hp with rfl | hp
        · exact h1
        · exact (ih.mp h2) p (by simpa using hp)
      · intro h
        refine ⟨h (a, b) (Or.inl rfl), ih.mpr ?_⟩
        intro p hp
        exact h p (Or.inr (by simpa using hp))

/-- Status of the HeadingHierarchy evaluator as a function of the check. -/
theorem heading_check_status (d : Dom) :
    (evalRule hhRule d).status =
      if noSkippedLevels (headingLevelSeq d) then Status.pass else Status.fail := by
  by_cases h : noSkippedLevels (headingLevelSeq d) = true
  · simp [evalRule, hhRule, h, passFinding]
  · simp only [Bool.not_eq_true] at h
    simp [evalRule, hhRule, h, failFinding]

/-- `passed` computes exactly the absence of an Error-severity Fail. -/
theorem computePassed_iff (fs : List Finding) :
    computePassed fs = true ↔
      ∀ f ∈ fs, ¬ (f.status = Status.fail ∧ f.severity = Severity.error) := by
  simp only [computePassed, failingError, List.all_eq_true, Bool.not_eq_true',
    decide_eq_false_iff_not]

/-- `evalRules` produces one Finding per rule, tripped or not. -/
theorem evalRules_length (d : Dom) (ff : Bool) (rs : List Rule) :
    ∀ tr : Bool, (evalRules d ff rs tr).length = rs.length := by
  induction rs with
  | nil => intro tr; simp [evalRules]
  | cons r rs' ih =>
    intro tr
    cases tr <;> simp [evalRules, ih]

/-- Without failFast, `evalRules` is exactly the evaluator mapped over the
rules in declaration order. -/
theorem evalRules_no_failFast (d : Dom) (rs : List Rule) :
    evalRules d false rs false = rs.map (fun r => evalRule r d) := by
  induction rs with
  | nil => simp [evalRules]
  | cons r rs' ih => simp [evalRules, ih]

/-! Claim theorems. -/

/-- C1 (counterexample): the level sequence [1, 2, 3, 2, 4], which the claim
says yields Pass, makes the heading-hierarchy check Fail — its final
adjacent pair increases from 2 to 4, a skipped level. -/
theorem headingHierarchy_counterexample :
    headingLevelSeq dom12324 = [1, 2, 3, 2, 4]
    ∧ (evalRule hhRule dom12324).status = Status.fail := by
  constructor
  · decide
  · decide

/-- C1 (amended): the HeadingHierarchy check, applied to the document-order
sequence of heading levels extracted from h1..h6, Fails exactly when some
adjacent pair of levels increases by more than 1 and places no restriction
on decreases; the sequence [1, 3] Fails, the sequence [1, 2, 3, 2, 4] also
Fails (the step 2 → 4 skips level 3), while [1, 2, 3, 2, 3] Passes. -/
theorem headingHierarchy_amended :
    (∀ d : Dom, (evalRule hhRule d).status = Status.pass ↔
      ∀ p ∈ (headingLevelSeq d).zip (headingLevelSeq d).tail, p.2 - p.1 ≤ 1)
    ∧ (headingLevelSeq dom13 = [1, 3]
        ∧ (evalRule hhRule dom13).status = Status.fail)
    ∧ (headingLevelSeq dom12324 = [1, 2, 3, 2, 4]
        ∧ (evalRule hhRule dom12324).status = Status.fail)
    ∧ (headingLevelSeq dom12323 = [1, 2, 3, 2, 3]
        ∧ (evalRule hhRule dom12323).status = Status.pass) := by
  refine ⟨?_, ⟨by decide, by decide⟩, ⟨by decide, by decide⟩, ⟨by decide, by decide⟩⟩
  intro d
  rw [heading_check_status, ← noSkippedLevels_iff]
  by_cases h : noSkippedLevels (headingLevelSeq d) = true <;> simp [h]

/-- C2: for every RunReport produced by evaluate, `passed` is true iff the
report holds no Finding with status Fail and severity Error; Warning-severity
Fails and Skipped findings never make `passed` false. -/
theorem passed_iff_no_error_fail :
    ∀ (R : RuleSet) (d : Dom) (opts : EvalOptions),
      (evaluate R d opts).passed = true ↔
        ∀ f ∈ (evaluate R d opts).findings,
          ¬ (f.status = Status.fail ∧ f.severity = Severity.error) :=
  fun R d opts => computePassed_iff (evalRules d opts.failFast R.rules false)

/-- C6: evaluate never raises for a rule that fails its expectation — with a
reachable document every rule's outcome is a Finding inside the returned
RunReport (one Finding per declared rule), and only the infrastructure-level
failure (DOM Accessor unreachable) surfaces as an engine-level error. -/
theorem evaluate_never_raises :
    ∀ (R : RuleSet) (d : Dom) (opts : EvalOptions),
      runEngine R (AccessorState.reachable d) opts = Except.ok (evaluate R d opts)
      ∧ (evaluate R d opts).findings.length = R.rules.length
      ∧ runEngine R AccessorState.unreachable opts
          = Except.error EngineError.accessorUnreachable :=
  fun R d opts => ⟨rfl, evalRules_length d opts.failFast R.rules false, rfl⟩

/-- C7: within one run the order of Findings equals the declaration order of
the Rules — the findings of evaluate are exactly the evaluator mapped over
the declared rules, so the i-th Finding is the outcome of the i-th Rule. -/
theorem findings_follow_declaration_order :
    ∀ (R : RuleSet) (d : Dom),
      (evaluate R d { failFast := false }).findings
        = R.rules.map (fun r => evalRule r d) :=
  fun R d => evalRules_no_failFast d R.rules

/-- C8: evaluate is deterministic — two runs against the same RuleSet and
unchanged document yield identical RunReports: same findings, same statuses,
same messages, same `passed`. -/
theorem evaluate_deterministic :
    ∀ (R : RuleSet) (d : Dom) (opts : EvalOptions) (r1 r2 : RunReport),
      r1 = evaluate R d opts → r2 = evaluate R d opts →
      r1 = r2 ∧ r1.findings = r2.findings
      ∧ r1.findings.map Finding.status = r2.findings.map Finding.status
      ∧ r1.findings.map Finding.message = r2.findings.map Finding.message
      ∧ r1.passed = r2.passed := by
  intro R d opts r1 r2 h1 h2
  subst h1; subst h2
  exact ⟨rfl, rfl, rfl, rfl, rfl⟩

/-- C8 witness: the determinism theorem applied to a concrete RuleSet,
document and options. -/
theorem evaluate_deterministic_witness :
    evaluate sampleRules domOneId defaultOpts = evaluate sampleRules domOneId defaultOpts
    ∧ (evaluate sampleRules domOneId defaultOpts).findings
        = (evaluate sampleRules domOneId defaultOpts).findings
    ∧ (evaluate sampleRules domOneId defaultOpts).findings.map Finding.status
        = (evaluate sampleRules domOneId defaultOpts).findings.map Finding.status
    ∧ (evaluate sampleRules domOneId defaultOpts).findings.map Finding.message
        = (evaluate sampleRules domOneId defaultOpts).findings.map Finding.message
    ∧ (evaluate sampleRules domOneId defaultOpts).passed
        = (evaluate sampleRules domOneId defaultOpts).passed :=
  evaluate_deterministic sampleRules domOneId defaultOpts
    (evaluate sampleRules domOneId defaultOpts)
    (evaluate sampleRules domOneId defaultOpts) rfl rfl

/-- Anatomy of a reported mismatch: `firstMismatchFrom i` reports the first
position (counted from `i`) where the actual text does not contain the
expected substring, with every earlier position matching. -/
theorem firstMismatchFrom_spec :
    ∀ (expd ts : List String) (i j : Nat) (e a : String),
      firstMismatchFrom i expd ts = some (j, e, a) →
      ∃ k, j = i + k ∧ expd.get? k = some e ∧ ts.get? k = some a ∧
        strContains a e = false ∧
        ∀ m, m < k → ∃ em am, expd.get? m = some em ∧ ts.get? m = some am ∧
          strContains am em = true := by
  intro expd
  induction expd with
  | nil => intro ts i j e a h; simp [firstMismatchFrom] at h
  | cons e0 es ih =>
    intro ts i j e a h
    cases ts with
    | nil => simp [firstMismatchFrom] at h
    | cons t0 ts' =>
      rw [firstMismatchFrom] at h
      by_cases hc : strContains t0 e0 = true
      · rw [if_pos hc] at h
        obtain ⟨k, hk, h1, h2, h3, h4⟩ := ih ts' (i + 1) j e a h
        refine ⟨k + 1, by omega, by simpa using h1, by simpa using h2, h3, ?_⟩
        intro m hm
        match m with
        | 0 => exact ⟨e0, t0, rfl, rfl, hc⟩
        | Nat.succ m' =>
          obtain ⟨em, am, u1, u2, u3⟩ := h4 m' (by omega)
          exact ⟨em, am, by simpa using u1, by simpa using u2, u3⟩
      · rw [if_neg hc] at h
        simp only [Option.some.injEq, Prod.mk.injEq] at h
        obtain ⟨rfl, rfl, rfl⟩ := h
        simp only [Bool.not_eq_true] at hc
        exact ⟨0, by omega, rfl, rfl, hc, fun m hm => absurd hm (Nat.not_lt_zero m)⟩

/-- The OrderedSequence evaluator's Finding, as a function of the first
mismatch of the zipped sequences. -/
theorem evalRule_orderedSequence (r : Rule) (expd : List String) (d : Dom)
    (hk : r.kind = RuleKind.orderedSequence expd) :
    evalRule r d =
      match firstMismatchFrom 0 expd ((d.query r.sel).map (fun x => trimStr x.text)) with
      | none => passFinding r "sequence matches expected order"
      | some (i, e, a) => failFinding r (some a) (mismatchMsg i e a) := by
  rw [evalRule, hk]

/-- C3: an OrderedSequence rule zips the selected children in document order
against the expected ordered list of substrings and Fails at the first index
where they mismatch, reporting that index together with the expected and the
actual value; expected [Home, Services, About, Contact] against actual child
texts [Home, About, Services, Contact] Fails at index 1, reporting expected
Services versus actual About. -/
theorem orderedSequence_first_mismatch :
    ((evalRule (osRule navExpected) navDom).status = Status.fail
      ∧ (evalRule (osRule navExpected) navDom).actual = some "About"
      ∧ (evalRule (osRule navExpected) navDom).message = mismatchMsg 1 "Services" "About")
    ∧ (∀ (expd ts : List String) (i : Nat) (e a : String),
        firstMismatchFrom 0 expd ts = some (i, e, a) →
          expd.get? i = some e ∧ ts.get? i = some a ∧ strContains a e = false ∧
            ∀ m, m < i → ∃ em am, expd.get? m = some em ∧ ts.get? m = some am ∧
              strContains am em = true)
    ∧ (∀ (r : Rule) (expd : List String) (d : Dom) (i : Nat) (e a : String),
        r.kind = RuleKind.orderedSequence expd →
        firstMismatchFrom 0 expd ((d.query r.sel).map (fun x => trimStr x.text))
            = some (i, e, a) →
          evalRule r d = failFinding r (some a) (mismatchMsg i e a))
    ∧ (∀ (r : Rule) (expd : List String) (d : Dom),
        r.kind = RuleKind.orderedSequence expd →
        firstMismatchFrom 0 expd ((d.query r.sel).map (fun x => trimStr x.text)) = none →
          (evalRule r d).status = Status.pass) := by
  refine ⟨⟨by decide, by decide, by decide⟩, ?_, ?_, ?_⟩
  · intro expd ts i e a h
    obtain ⟨k, hk, h1, h2, h3, h4⟩ := firstMismatchFrom_spec expd ts 0 i e a h
    obtain rfl : i = k := by omega
    exact ⟨h1, h2, h3, h4⟩
  · intro r expd d i e a hk h
    rw [evalRule_orderedSequence r expd d hk, h]
  · intro r expd d hk h
    rw [evalRule_orderedSequence r expd d hk, h, passFinding]

/-- C3 witness: the mismatch theorem applied at the navigation boundary
input — the Finding reported for expected [Home, Services, About, Contact]
against actual [Home, About, Services, Contact]. -/
theorem orderedSequence_first_mismatch_witness :
    evalRule (osRule navExpected) navDom
      = failFinding (osRule navExpected) (some "About") (mismatchMsg 1 "Services" "About") :=
  orderedSequence_first_mismatch.2.2.1 (osRule navExpected) navExpected navDom
    1 "Services" "About" rfl (by decide)

/-- C4: a Count rule with an exact expected count of 4 yields Pass on a
document where the selector matches exactly 4 elements, and Fail with the
observed count as the Finding's actual value on 3 or 5 matches. -/
theorem count_exact_boundary :
    ∀ (rid : String) (sev : Severity) (sel : Selector) (d : Dom),
      (d.countSel sel = 4 →
        (evalRule (countRule rid sev sel) d).status = Status.pass)
      ∧ (d.countSel sel = 3 →
          (evalRule (countRule rid sev sel) d).status = Status.fail
          ∧ (evalRule (countRule rid sev sel) d).actual = some "3")
      ∧ (d.countSel sel = 5 →
          (evalRule (countRule rid sev sel) d).status = Status.fail
          ∧ (evalRule (countRule rid sev sel) d).actual = some "5") := by
  intro rid sev sel d
  refine ⟨?_, ?_, ?_⟩ <;> intro h <;>
    simp [evalRule, countRule, h, passFinding, failFinding, natToStr, natDigits, digitChar]

/-- C4 witness: the Count boundary theorem applied at documents holding
exactly 4, 3 and 5 service cards. -/
theorem count_exact_boundary_witness :
    ((evalRule (countRule "cards" Severity.error cardSel) (domCards 4)).status = Status.pass)
    ∧ ((evalRule (countRule "cards" Severity.error cardSel) (domCards 3)).status = Status.fail
        ∧ (evalRule (countRule "cards" Severity.error cardSel) (domCards 3)).actual = some "3")
    ∧ ((evalRule (countRule "cards" Severity.error cardSel) (domCards 5)).status = Status.fail
        ∧ (evalRule (countRule "cards" Severity.error cardSel) (domCards 5)).actual = some "5") :=
  ⟨(count_exact_boundary "cards" Severity.error cardSel (domCards 4)).1 (by decide),
   (count_exact_boundary "cards" Severity.error cardSel (domCards 3)).2.1 (by decide),
   (count_exact_boundary "cards" Severity.error cardSel (domCards 5)).2.2 (by decide)⟩

/-- A missing reference is none exactly when every aria-labelledby reference
of the given elements resolves to some element of the document. -/
theorem missingRef_none_iff (d : Dom) (es : List Elem) :
    missingRef d es = none ↔
      ∀ ref ∈ es.filterMap (fun e => e.attr "aria-labelledby"),
        (resolveId d ref).isSome = true := by
  simp only [missingRef, List.find?_eq_none, Bool.not_eq_true,
    Option.isNone_eq_false_iff, Option.isSome_iff_ne_none]

/-- The AriaCrossReference evaluator passes exactly when the missing
reference search comes up empty. -/
theorem evalRule_aria_status (r : Rule) (d : Dom)
    (hk : r.kind = RuleKind.ariaCrossReference) :
    ((evalRule r d).status = Status.pass ↔ missingRef d (d.query r.sel) = none) := by
  rw [evalRule, hk]
  cases hm : missingRef d (d.query r.sel) with
  | none => simp [hm, passFinding]
  | some ref => simp [hm, failFinding]

/-- C5: an AriaCrossReference check over elements with aria-labelledby Fails
when no element of the document carries the referenced id, Passes when
exactly one does, and still Passes when two elements share the id — the
reference resolves to the first match. -/
theorem ariaCrossReference_resolution :
    (∀ (r : Rule) (d : Dom), r.kind = RuleKind.ariaCrossReference →
      ((evalRule r d).status = Status.pass ↔
        ∀ ref ∈ (d.query r.sel).filterMap (fun e => e.attr "aria-labelledby"),
          (resolveId d ref).isSome = true))
    ∧ (evalRule ariaSample domNoId).status = Status.fail
    ∧ (evalRule ariaSample domOneId).status = Status.pass
    ∧ (evalRule ariaSample domTwoIds).status = Status.pass
    ∧ resolveId domTwoIds "hero-title" = some heroTitle1 := by
  refine ⟨?_, by decide, by decide, by decide, by decide⟩
  intro r d hk
  rw [evalRule_aria_status r d hk, missingRef_none_iff]

/-- C5 witness: the resolution theorem applied to the sample rule on the
document where the single referenced id resolves. -/
theorem ariaCrossReference_resolution_witness :
    (evalRule ariaSample domOneId).status = Status.pass ↔
      ∀ ref ∈ (domOneId.query ariaSample.sel).filterMap
          (fun e => e.attr "aria-labelledby"),
        (resolveId domOneId ref).isSome = true :=
  ariaCrossReference_resolution.1 ariaSample domOneId rfl

/-- Per-element reading of the secure-links loop body. -/
theorem relSecure_iff (e : Elem) :
    relSecure e = true ↔
      (e.attr "rel").isSome = true
      ∧ strContains ((e.attr "rel").getD "") "noopener" = true
      ∧ strContains ((e.attr "rel").getD "") "noreferrer" = true := by
  cases h : e.attr "rel" with
  | none => simp [relSecure, h]
  | some rel => simp [relSecure, h]

/-- C9: the secure-external-links test quantifies over every anchor with
target equal to `_blank` (not a fixed list) and requires its rel attribute
to contain noopener and noreferrer; the rel value the navigation test pins
on the four social links, `noopener noreferrer`, carries both as
whitespace-separated tokens, and the four social links satisfy the check. -/
theorem secure_external_links_universal :
    (∀ d : Dom, secureExternalLinksCheck d = true ↔
      ∀ e ∈ d.elems, e.tag = "a" → e.attr "target" = some "_blank" →
        (e.attr "rel").isSome = true
        ∧ strContains ((e.attr "rel").getD "") "noopener" = true
        ∧ strContains ((e.attr "rel").getD "") "noreferrer" = true)
    ∧ hasToken "noopener noreferrer" "noopener" = true
    ∧ hasToken "noopener noreferrer" "noreferrer" = true
    ∧ secureExternalLinksCheck socialDom = true := by
  refine ⟨?_, by decide, by decide, by decide⟩
  intro d
  simp only [secureExternalLinksCheck, List.all_eq_true, List.mem_filter,
    Bool.and_eq_true, beq_iff_eq]
  constructor
  · intro h e he ht hb
    exact (relSecure_iff e).mp (h e ⟨he, ht, hb⟩)
  · rintro h e ⟨he, ht, hb⟩
    exact (relSecure_iff e).mpr (h e he ht hb)

/-- C10: every img element either is marked decorative with aria-hidden
"true" or carries an alt attribute — the audit test's image check holds
exactly on such documents; an aria-hidden image is exempt from the alt-text
requirement, and the decorative service-card icons (alt empty, aria-hidden
true) satisfy both image checks of the suite. -/
theorem img_alt_or_decorative :
    (∀ d : Dom, auditImgCheck d = true ↔
      ∀ e ∈ d.elems, e.tag = "img" →
        e.attr "aria-hidden" = some "true" ∨ (e.attr "alt").isSome = true)
    ∧ (auditImgCheck imgDomDecorative = true
        ∧ altTextTestCheck imgDomDecorative = true)
    ∧ (auditImgCheck imgDomHiddenNoAlt = true
        ∧ altTextTestCheck imgDomHiddenNoAlt = true) := by
  refine ⟨?_, ⟨by decide, by decide⟩, ⟨by decide, by decide⟩⟩
  intro d
  simp only [auditImgCheck, List.all_eq_true, List.mem_filter, Bool.or_eq_true,
    beq_iff_eq]
  constructor
  · intro h e he ht
    rcases (h e ⟨he, ht⟩) with h1 | h2
    · exact Or.inr h1
    · exact Or.inl h2
  · rintro h e ⟨he, ht⟩
    rcases h e he ht with h1 | h2
    · exact Or.inr h1
    · exact Or.inl h2

end DomConf
